import Mathlib

/-!
Shallow embedding of src/types/src/string/mapping.rs from the elastic
repository: the string field-mapping types and their serde serialization.

Serialization in the source is written against an abstract serde
Serializer.  We embed that interface as a record of backend operations
over an abstract state type and error type; the serialize functions are
translated line by line from the source, threading the state through the
Except monad exactly as the try! macro threads Result.  The canonical
in-memory document is obtained by running a serialize function on the
list backend, which records the emitted (key, value) entries in order.
-/

/-- Wire values that the mappings emit.  Numeric fields pass through
unmodified (boost is a 32-bit float, precision_step and max_input_length
are 32-bit unsigned integers); since no arithmetic is performed on them
in this layer, floats are modelled as rationals and unsigned integers as
naturals. -/
inductive Value where
  | str (s : String)
  | bool (b : Bool)
  | nat (n : Nat)
  | f32 (q : Rat)
deriving DecidableEq, Repr

/-- The serde Serializer interface, restricted to the methods the source
file calls: serialize_struct, serialize_struct_elt, serialize_struct_end
and serialize_str.  The state type is sigma, the backend error type is
epsilon; every method may fail, and the source propagates each failure
with try!. -/
structure Backend (σ ε : Type) where
  beginStruct : String → Nat → σ → Except ε σ
  elt : σ → String → Value → Except ε σ
  endStruct : σ → Except ε σ
  str : String → σ → Except ε σ

/-- Modelled from the spec: the ser_field macro used by the source is
defined elsewhere in the repository (not under src/).  Per the spec it
emits the name:value entry only if the optional value is present, and
emits nothing for that parameter otherwise (no null, no key). -/
def ser_field {σ ε : Type} (B : Backend σ ε) (state : σ) (key : String)
    (v : Option Value) : Except ε σ :=
  match v with
  | some x => B.elt state key x
  | none => Except.ok state

/-- Modelled from the spec: the IndexAnalysis enum lives in the external
field module (not under src/).  Per the spec the index parameter accepts
not_analyzed (the default) and no. -/
inductive IndexAnalysis where
  | NotAnalyzed
  | No
deriving DecidableEq, Repr

/-- Modelled from the spec: enum-valued fields serialize via their own
fixed string vocabulary. -/
def IndexAnalysis.toValue : IndexAnalysis → Value
  | .NotAnalyzed => .str "not_analyzed"
  | .No => .str "no"

/-- Elasticsearch datatype name. -/
def TOKENCOUNT_DATATYPE : String := "token_count"

/-- Elasticsearch datatype name. -/
def COMPLETION_DATATYPE : String := "completion"

/-- The index_options parameter: what information is added to the
inverted index. -/
inductive IndexOptions where
  | Docs
  | Freqs
  | Positions
  | Offsets
deriving DecidableEq, Repr

/-- Serialize impl for IndexOptions: serialize_str of the matching
lowercase token. -/
def IndexOptions.serialize {σ ε : Type} (B : Backend σ ε) (o : IndexOptions)
    (s : σ) : Except ε σ :=
  B.str
    (match o with
     | .Docs => "docs"
     | .Freqs => "freqs"
     | .Positions => "positions"
     | .Offsets => "offsets") s

/-- A multi-field string mapping for a token count. -/
structure ElasticTokenCountFieldMapping where
  analyzer : Option String := none
  boost : Option Rat := none
  doc_values : Option Bool := none
  index : Option IndexAnalysis := none
  include_in_all : Option Bool := none
  precision_step : Option Nat := none
  store : Option Bool := none
deriving DecidableEq, Repr

/-- The derived Default impl: every Option field defaults to None. -/
def ElasticTokenCountFieldMapping.default : ElasticTokenCountFieldMapping := {}

/-- Serialize impl for ElasticTokenCountFieldMapping, translated from the
source: serialize_struct, an unconditional type entry, seven ser_field
emissions in declared order, serialize_struct_end. -/
def ElasticTokenCountFieldMapping.serialize {σ ε : Type} (B : Backend σ ε)
    (m : ElasticTokenCountFieldMapping) (s : σ) : Except ε σ := do
  let state ← B.beginStruct "mapping" 8 s
  let state ← B.elt state "type" (Value.str TOKENCOUNT_DATATYPE)
  let state ← ser_field B state "analyzer" (m.analyzer.map Value.str)
  let state ← ser_field B state "boost" (m.boost.map Value.f32)
  let state ← ser_field B state "doc_values" (m.doc_values.map Value.bool)
  let state ← ser_field B state "index" (m.index.map IndexAnalysis.toValue)
  let state ← ser_field B state "include_in_all" (m.include_in_all.map Value.bool)
  let state ← ser_field B state "precision_step" (m.precision_step.map Value.nat)
  let state ← ser_field B state "store" (m.store.map Value.bool)
  B.endStruct state

/-- A multi-field string mapping for a completion suggester. -/
structure ElasticCompletionFieldMapping where
  analyzer : Option String := none
  search_analyzer : Option String := none
  payloads : Option Bool := none
  preserve_separators : Option Bool := none
  preserve_position_increments : Option Bool := none
  max_input_length : Option Nat := none
deriving DecidableEq, Repr

/-- The derived Default impl: every Option field defaults to None. -/
def ElasticCompletionFieldMapping.default : ElasticCompletionFieldMapping := {}

/-- Serialize impl for ElasticCompletionFieldMapping, translated from the
source: serialize_struct, an unconditional type entry, six ser_field
emissions in declared order, serialize_struct_end. -/
def ElasticCompletionFieldMapping.serialize {σ ε : Type} (B : Backend σ ε)
    (m : ElasticCompletionFieldMapping) (s : σ) : Except ε σ := do
  let state ← B.beginStruct "mapping" 7 s
  let state ← B.elt state "type" (Value.str COMPLETION_DATATYPE)
  let state ← ser_field B state "analyzer" (m.analyzer.map Value.str)
  let state ← ser_field B state "search_analyzer" (m.search_analyzer.map Value.str)
  let state ← ser_field B state "payloads" (m.payloads.map Value.bool)
  let state ← ser_field B state "preserve_separators" (m.preserve_separators.map Value.bool)
  let state ← ser_field B state "preserve_position_increments"
      (m.preserve_position_increments.map Value.bool)
  let state ← ser_field B state "max_input_length" (m.max_input_length.map Value.nat)
  B.endStruct state

/-- Modelled from the spec: KeywordFieldMapping comes from the external
keyword-mapping module (not under src/).  The spec names its
ignore_above parameter (an upper bound on indexed value length) and
states that it follows the same always-tag, sparse-optionals rule with
datatype string keyword. -/
structure KeywordFieldMapping where
  ignore_above : Option Nat := none
deriving DecidableEq, Repr

/-- Modelled from the spec: keyword mappings emit the type tag first and
then each present optional parameter in declared order. -/
def KeywordFieldMapping.serialize {σ ε : Type} (B : Backend σ ε)
    (m : KeywordFieldMapping) (s : σ) : Except ε σ := do
  let state ← B.beginStruct "mapping" 2 s
  let state ← B.elt state "type" (Value.str "keyword")
  let state ← ser_field B state "ignore_above" (m.ignore_above.map Value.nat)
  B.endStruct state

/-- Modelled from the spec: TextFieldMapping comes from the external
text-mapping module (not under src/).  The spec states only that it
follows the same always-tag rule with datatype string text; no optional
parameter of it is named by the spec, so none is modelled. -/
structure TextFieldMapping where
deriving DecidableEq, Repr

/-- Modelled from the spec: text mappings emit the type tag first. -/
def TextFieldMapping.serialize {σ ε : Type} (B : Backend σ ε)
    (_ : TextFieldMapping) (s : σ) : Except ε σ := do
  let state ← B.beginStruct "mapping" 1 s
  let state ← B.elt state "type" (Value.str "text")
  B.endStruct state

/-- A string sub-field type: the tagged union over the four variants. -/
inductive ElasticStringField where
  | TokenCount (m : ElasticTokenCountFieldMapping)
  | Completion (m : ElasticCompletionFieldMapping)
  | Keyword (m : KeywordFieldMapping)
  | Text (m : TextFieldMapping)
deriving DecidableEq, Repr

/-- Serialize impl for ElasticStringField, translated from the source:
a match on the tag delegating to the wrapped mapping. -/
def ElasticStringField.serialize {σ ε : Type} (B : Backend σ ε)
    (f : ElasticStringField) (s : σ) : Except ε σ :=
  match f with
  | .TokenCount m => m.serialize B s
  | .Completion m => m.serialize B s
  | .Keyword m => m.serialize B s
  | .Text m => m.serialize B s

/-- Default mapping for String: a zero-sized marker type. -/
structure DefaultStringMapping where
deriving DecidableEq, Repr

/-- The TextMapping impl for DefaultStringMapping, translated from the
source: insert the keyword entry (a KeywordFieldMapping with
ignore_above Some 256 and all else default) into an empty BTreeMap and
return Some of it.  A BTreeMap with a single entry is the singleton
association list. -/
def DefaultStringMapping.fields : Option (List (String × ElasticStringField)) :=
  some [("keyword", ElasticStringField.Keyword { ignore_above := some 256 })]

/-- One emitted document entry. -/
abbrev Entry := String × Value

/-- The canonical in-memory document builder: state is the ordered list
of entries emitted so far, and no operation can fail (the error type is
Empty).  serialize_struct and serialize_struct_end leave the entry list
unchanged; serialize_struct_elt appends one entry. -/
def listBackend : Backend (List Entry) Empty where
  beginStruct := fun _ _ s => Except.ok s
  elt := fun s k v => Except.ok (s ++ [(k, v)])
  endStruct := fun s => Except.ok s
  str := fun _ s => Except.ok s

/-- Run a serialization that cannot fail and extract the final state. -/
def runInfallible {α : Type} (x : Except Empty α) : α :=
  match x with
  | .ok a => a
  | .error e => e.elim

/-- The document a token count mapping serializes to. -/
def ElasticTokenCountFieldMapping.document
    (m : ElasticTokenCountFieldMapping) : List Entry :=
  runInfallible (m.serialize listBackend [])

/-- The document a completion mapping serializes to. -/
def ElasticCompletionFieldMapping.document
    (m : ElasticCompletionFieldMapping) : List Entry :=
  runInfallible (m.serialize listBackend [])

/-- The document a keyword mapping serializes to. -/
def KeywordFieldMapping.document (m : KeywordFieldMapping) : List Entry :=
  runInfallible (m.serialize listBackend [])

/-- The document a text mapping serializes to. -/
def TextFieldMapping.document (m : TextFieldMapping) : List Entry :=
  runInfallible (m.serialize listBackend [])

/-- The document a string sub-field serializes to. -/
def ElasticStringField.document (f : ElasticStringField) : List Entry :=
  runInfallible (f.serialize listBackend [])

/-- The declared parameters of a token count mapping, in declared order,
each paired with its optional encoded value.  This is the spec side of
the sparsity claim: the reference list of parameter names and set
values. -/
def tokenCountParams (m : ElasticTokenCountFieldMapping) :
    List (String × Option Value) :=
  [("analyzer", m.analyzer.map Value.str),
   ("boost", m.boost.map Value.f32),
   ("doc_values", m.doc_values.map Value.bool),
   ("index", m.index.map IndexAnalysis.toValue),
   ("include_in_all", m.include_in_all.map Value.bool),
   ("precision_step", m.precision_step.map Value.nat),
   ("store", m.store.map Value.bool)]

/-- The declared parameters of a completion mapping, in declared order,
each paired with its optional encoded value. -/
def completionParams (m : ElasticCompletionFieldMapping) :
    List (String × Option Value) :=
  [("analyzer", m.analyzer.map Value.str),
   ("search_analyzer", m.search_analyzer.map Value.str),
   ("payloads", m.payloads.map Value.bool),
   ("preserve_separators", m.preserve_separators.map Value.bool),
   ("preserve_position_increments", m.preserve_position_increments.map Value.bool),
   ("max_input_length", m.max_input_length.map Value.nat)]

/-- Keep only the present parameters, in order, as document entries. -/
def presentEntries (ps : List (String × Option Value)) : List Entry :=
  ps.filterMap (fun p => p.2.map (fun v => (p.1, v)))

theorem except_ok_bind {ε α β : Type} (a : α) (f : α → Except ε β) :
    (Except.ok a >>= f : Except ε β) = f a := rfl

theorem except_error_bind {ε α β : Type} (e : ε) (f : α → Except ε β) :
    (Except.error e >>= f : Except ε β) = Except.error e := rfl

theorem listBackend_beginStruct (n : String) (l : Nat) (s : List Entry) :
    listBackend.beginStruct n l s = Except.ok s := rfl

theorem listBackend_elt (s : List Entry) (k : String) (v : Value) :
    listBackend.elt s k v = Except.ok (s ++ [(k, v)]) := rfl

theorem listBackend_endStruct (s : List Entry) :
    listBackend.endStruct s = Except.ok s := rfl

theorem ser_field_listBackend (s : List Entry) (k : String) (v : Option Value) :
    ser_field listBackend s k v =
      Except.ok (s ++ (v.map (fun x => (k, x))).toList) := by
  cases v <;> simp [ser_field, listBackend]

theorem presentEntries_nil : presentEntries [] = [] := rfl

theorem presentEntries_cons (k : String) (v : Option Value)
    (ps : List (String × Option Value)) :
    presentEntries ((k, v) :: ps) =
      (v.map (fun x => (k, x))).toList ++ presentEntries ps := by
  cases v <;> simp [presentEntries]

theorem tokenCount_run (m : ElasticTokenCountFieldMapping) (s : List Entry) :
    m.serialize listBackend s =
      Except.ok (s ++ ("type", Value.str TOKENCOUNT_DATATYPE) ::
        presentEntries (tokenCountParams m)) := by
  simp [ElasticTokenCountFieldMapping.serialize, listBackend_beginStruct,
        listBackend_elt, listBackend_endStruct, ser_field_listBackend,
        presentEntries_cons, presentEntries_nil, tokenCountParams, except_ok_bind]

theorem completion_run (m : ElasticCompletionFieldMapping) (s : List Entry) :
    m.serialize listBackend s =
      Except.ok (s ++ ("type", Value.str COMPLETION_DATATYPE) ::
        presentEntries (completionParams m)) := by
  simp [ElasticCompletionFieldMapping.serialize, listBackend_beginStruct,
        listBackend_elt, listBackend_endStruct, ser_field_listBackend,
        presentEntries_cons, presentEntries_nil, completionParams, except_ok_bind]

theorem keyword_run (m : KeywordFieldMapping) (s : List Entry) :
    m.serialize listBackend s =
      Except.ok (s ++ ("type", Value.str "keyword") ::
        ((m.ignore_above.map Value.nat).map (fun x => ("ignore_above", x))).toList) := by
  simp [KeywordFieldMapping.serialize, listBackend_beginStruct, listBackend_elt,
        listBackend_endStruct, ser_field_listBackend, except_ok_bind]

theorem text_run (m : TextFieldMapping) (s : List Entry) :
    m.serialize listBackend s = Except.ok (s ++ [("type", Value.str "text")]) := by
  simp [TextFieldMapping.serialize, listBackend_beginStruct, listBackend_elt,
        listBackend_endStruct, except_ok_bind]

theorem tokenCount_document_eq (m : ElasticTokenCountFieldMapping) :
    m.document = ("type", Value.str TOKENCOUNT_DATATYPE) ::
      presentEntries (tokenCountParams m) := by
  simp [ElasticTokenCountFieldMapping.document, tokenCount_run, runInfallible]

theorem completion_document_eq (m : ElasticCompletionFieldMapping) :
    m.document = ("type", Value.str COMPLETION_DATATYPE) ::
      presentEntries (completionParams m) := by
  simp [ElasticCompletionFieldMapping.document, completion_run, runInfallible]

theorem mem_presentEntries (ps : List (String × Option Value)) (k : String) (v : Value) :
    (k, v) ∈ presentEntries ps ↔ ∃ p ∈ ps, p.1 = k ∧ p.2 = some v := by
  simp only [presentEntries, List.mem_filterMap, Option.map_eq_some', Prod.mk.injEq]
  constructor
  · rintro ⟨p, hp, x, hx, h1, h2⟩
    exact ⟨p, hp, h1, by rw [hx, h2]⟩
  · rintro ⟨p, hp, h1, h2⟩
    exact ⟨p, hp, v, h2, h1, rfl⟩

/-- If the declared keys are distinct and the tag key is not among them,
then a declared parameter has its key in the document exactly when its
optional value is present. -/
theorem document_key_iff (ps : List (String × Option Value)) (tag : Entry)
    (d : List Entry) (hd : d = tag :: presentEntries ps)
    (hnd : (ps.map Prod.fst).Nodup) (htag : tag.1 ∉ ps.map Prod.fst)
    (p : String × Option Value) (hp : p ∈ ps) :
    (∃ v, (p.1, v) ∈ d) ↔ p.2.isSome := by
  constructor
  · rintro ⟨v, hv⟩
    rw [hd] at hv
    rcases List.mem_cons.mp hv with h | h
    · exfalso
      apply htag
      have : p.1 = tag.1 := by
        have := congrArg Prod.fst h
        simpa using this
      rw [← this]
      exact List.mem_map_of_mem Prod.fst hp
    · rcases (mem_presentEntries ps p.1 v).mp h with ⟨q, hq, hq1, hq2⟩
      have hqp : q = p := List.inj_on_of_nodup_map hnd hq hp hq1
      rw [← hqp, hq2]
      rfl
  · intro hs
    obtain ⟨v, hv⟩ := Option.isSome_iff_exists.mp hs
    refine ⟨v, ?_⟩
    rw [hd]
    exact List.mem_cons_of_mem _ ((mem_presentEntries ps p.1 v).mpr ⟨p, hp, rfl, hv⟩)

theorem except_isOk_exists {ε α : Type} (x : Except ε α) :
    x.isOk = true ↔ ∃ a, x = Except.ok a := by
  cases x <;> simp [Except.isOk, Except.toBool]

theorem bind_isOk {ε α β : Type} {x : Except ε α} {f : α → Except ε β}
    (hx : x.isOk = true) (hf : ∀ a, (f a).isOk = true) :
    (x >>= f : Except ε β).isOk = true := by
  obtain ⟨a, rfl⟩ := (except_isOk_exists x).mp hx
  rw [except_ok_bind]
  exact hf a

theorem bind_error_cases {ε α β : Type} {x : Except ε α} {f : α → Except ε β}
    {e : ε} (h : (x >>= f : Except ε β) = Except.error e) :
    x = Except.error e ∨ ∃ a, f a = Except.error e := by
  cases x with
  | error e0 =>
    left
    rw [except_error_bind] at h
    cases h
    rfl
  | ok a =>
    right
    rw [except_ok_bind] at h
    exact ⟨a, h⟩

/-- A backend never fails when each of its structural operations always
returns ok. -/
def Backend.neverFails {σ ε : Type} (B : Backend σ ε) : Prop :=
  (∀ n l u, (B.beginStruct n l u).isOk = true) ∧
  (∀ u k v, (B.elt u k v).isOk = true) ∧
  (∀ u, (B.endStruct u).isOk = true)

/-- An error value is one the backend itself produced on some call of a
structural operation. -/
def Backend.emits {σ ε : Type} (B : Backend σ ε) (e : ε) : Prop :=
  (∃ n l u, B.beginStruct n l u = Except.error e) ∨
  (∃ u k v, B.elt u k v = Except.error e) ∨
  (∃ u, B.endStruct u = Except.error e)

theorem ser_field_isOk {σ ε : Type} {B : Backend σ ε}
    (helt : ∀ u k v, (B.elt u k v).isOk = true) (u : σ) (k : String)
    (v : Option Value) : (ser_field B u k v).isOk = true := by
  cases v with
  | none => rfl
  | some x => exact helt u k x

theorem ser_field_error {σ ε : Type} {B : Backend σ ε} {u : σ} {k : String}
    {v : Option Value} {e : ε} (h : ser_field B u k v = Except.error e) :
    ∃ u0 k0 v0, B.elt u0 k0 v0 = Except.error e := by
  cases v with
  | none => exact absurd h (by simp [ser_field])
  | some x => exact ⟨u, k, x, h⟩

/-- Claim C1: for every parameter-set value of the two mappings, the
serialized document is the type tag followed by exactly the present
parameters in declared order with exactly the values that were set, and
a parameter key appears in the document if and only if its optional
value is present. -/
theorem sparse_serialization (m : ElasticTokenCountFieldMapping)
    (c : ElasticCompletionFieldMapping) :
    (m.document = ("type", Value.str TOKENCOUNT_DATATYPE) ::
        presentEntries (tokenCountParams m))
    ∧ (∀ p ∈ tokenCountParams m, (∃ v, (p.1, v) ∈ m.document) ↔ p.2.isSome)
    ∧ (c.document = ("type", Value.str COMPLETION_DATATYPE) ::
        presentEntries (completionParams c))
    ∧ (∀ p ∈ completionParams c, (∃ v, (p.1, v) ∈ c.document) ↔ p.2.isSome) := by
  have hk1 : (tokenCountParams m).map Prod.fst =
      ["analyzer", "boost", "doc_values", "index", "include_in_all",
       "precision_step", "store"] := rfl
  have hk2 : (completionParams c).map Prod.fst =
      ["analyzer", "search_analyzer", "payloads", "preserve_separators",
       "preserve_position_increments", "max_input_length"] := rfl
  refine ⟨tokenCount_document_eq m, ?_, completion_document_eq c, ?_⟩
  · exact fun p hp => document_key_iff (tokenCountParams m) _ _
      (tokenCount_document_eq m) (by rw [hk1]; decide) (by rw [hk1]; decide) p hp
  · exact fun p hp => document_key_iff (completionParams c) _ _
      (completion_document_eq c) (by rw [hk2]; decide) (by rw [hk2]; decide) p hp

theorem sparse_serialization_witness :
    ∃ v, ("doc_values", v) ∈
      ElasticTokenCountFieldMapping.document { doc_values := some true } :=
  ((sparse_serialization { doc_values := some true } { }).2.1
      ("doc_values", Option.map Value.bool (some true)) (by decide)).mpr rfl

/-- Claim C2: the first entry of the document of every ElasticStringField
value is the type key with the fixed datatype string of the active
variant. -/
theorem type_tag_first (f : ElasticStringField) :
    f.document.head? = some ("type", Value.str
      (match f with
       | .TokenCount _ => "token_count"
       | .Completion _ => "completion"
       | .Keyword _ => "keyword"
       | .Text _ => "text")) := by
  cases f with
  | TokenCount m =>
    simp [ElasticStringField.document, ElasticStringField.serialize,
          tokenCount_run, runInfallible, TOKENCOUNT_DATATYPE]
  | Completion m =>
    simp [ElasticStringField.document, ElasticStringField.serialize,
          completion_run, runInfallible, COMPLETION_DATATYPE]
  | Keyword m =>
    simp [ElasticStringField.document, ElasticStringField.serialize,
          keyword_run, runInfallible]
  | Text m =>
    simp [ElasticStringField.document, ElasticStringField.serialize,
          text_run, runInfallible]

/-- Claim C3: DefaultStringMapping.fields returns Some of exactly one
entry keyed keyword, a Keyword variant with ignore_above Some 256 and
everything else absent, and that entry serializes to the two-entry
document with type keyword and ignore_above 256. -/
theorem default_string_mapping_fields :
    DefaultStringMapping.fields =
      some [("keyword", ElasticStringField.Keyword { ignore_above := some 256 })]
    ∧ (ElasticStringField.Keyword { ignore_above := some 256 }).document =
      [("type", Value.str "keyword"), ("ignore_above", Value.nat 256)] :=
  ⟨rfl, rfl⟩

/-- Claim C4: the completion mapping with max_input_length Some 20 and
preserve_separators Some false and all other parameters None serializes
to exactly the three entries type, preserve_separators, max_input_length
in declared order. -/
theorem completion_scenario :
    ElasticCompletionFieldMapping.document
      { max_input_length := some 20, preserve_separators := some false } =
      [("type", Value.str "completion"), ("preserve_separators", Value.bool false),
       ("max_input_length", Value.nat 20)] := rfl

/-- Claim C5: the token count mapping with boost Some 2.5 (the rational
5 / 2) and all other parameters None serializes to exactly the type
entry followed by the boost entry. -/
theorem token_count_boost_scenario :
    ElasticTokenCountFieldMapping.document { boost := some (5 / 2) } =
      [("type", Value.str "token_count"), ("boost", Value.f32 (5 / 2))] := rfl

/-- Claim C6: each IndexOptions value serializes, on every backend, by a
single serialize_str call of its fixed lowercase token: docs, freqs,
positions, offsets. -/
theorem index_options_tokens {σ ε : Type} (B : Backend σ ε) (s : σ) :
    IndexOptions.serialize B IndexOptions.Docs s = B.str "docs" s
    ∧ IndexOptions.serialize B IndexOptions.Freqs s = B.str "freqs" s
    ∧ IndexOptions.serialize B IndexOptions.Positions s = B.str "positions" s
    ∧ IndexOptions.serialize B IndexOptions.Offsets s = B.str "offsets" s :=
  ⟨rfl, rfl, rfl, rfl⟩

/-- Claim C7: serialization is a pure function of the value alone: on
the accumulating document backend, serializing a value from any prior
state appends exactly that value's document, so two serializations of
the same value yield identical entry sequences in content and order no
matter what was serialized before. -/
theorem serialize_deterministic (m : ElasticTokenCountFieldMapping)
    (c : ElasticCompletionFieldMapping) (s t : List Entry) :
    m.serialize listBackend s = Except.ok (s ++ m.document)
    ∧ c.serialize listBackend t = Except.ok (t ++ c.document) := by
  constructor
  · rw [tokenCount_run, tokenCount_document_eq]
  · rw [completion_run, completion_document_eq]

/-- Claim C8: on every backend and every state, serializing the union
value is definitionally the serialization of the wrapped parameter set:
the union serializer only dispatches on the tag. -/
theorem union_serialize_delegates {σ ε : Type} (B : Backend σ ε) (s : σ)
    (m : ElasticTokenCountFieldMapping) (c : ElasticCompletionFieldMapping)
    (k : KeywordFieldMapping) (t : TextFieldMapping) :
    (ElasticStringField.TokenCount m).serialize B s = m.serialize B s
    ∧ (ElasticStringField.Completion c).serialize B s = c.serialize B s
    ∧ (ElasticStringField.Keyword k).serialize B s = k.serialize B s
    ∧ (ElasticStringField.Text t).serialize B s = t.serialize B s :=
  ⟨rfl, rfl, rfl, rfl⟩

/-- Claim C9: serialization fails exactly when the backend fails: if no
backend operation can fail then every serialization succeeds, and any
error a serialization returns is literally an error value some backend
operation produced, propagated unmodified. -/
theorem serialize_error_propagation {σ ε : Type} (B : Backend σ ε)
    (m : ElasticTokenCountFieldMapping) (c : ElasticCompletionFieldMapping)
    (s t : σ) :
    (B.neverFails →
      (m.serialize B s).isOk = true ∧ (c.serialize B t).isOk = true)
    ∧ (∀ e, m.serialize B s = Except.error e → B.emits e)
    ∧ (∀ e, c.serialize B t = Except.error e → B.emits e) := by
  refine ⟨?_, ?_, ?_⟩
  · rintro ⟨hb, he, hn⟩
    constructor
    · simp only [ElasticTokenCountFieldMapping.serialize]
      exact bind_isOk (hb _ _ _) fun _ => bind_isOk (he _ _ _) fun _ =>
        bind_isOk (ser_field_isOk he _ _ _) fun _ =>
        bind_isOk (ser_field_isOk he _ _ _) fun _ =>
        bind_isOk (ser_field_isOk he _ _ _) fun _ =>
        bind_isOk (ser_field_isOk he _ _ _) fun _ =>
        bind_isOk (ser_field_isOk he _ _ _) fun _ =>
        bind_isOk (ser_field_isOk he _ _ _) fun _ =>
        bind_isOk (ser_field_isOk he _ _ _) fun _ => hn _
    · simp only [ElasticCompletionFieldMapping.serialize]
      exact bind_isOk (hb _ _ _) fun _ => bind_isOk (he _ _ _) fun _ =>
        bind_isOk (ser_field_isOk he _ _ _) fun _ =>
        bind_isOk (ser_field_isOk he _ _ _) fun _ =>
        bind_isOk (ser_field_isOk he _ _ _) fun _ =>
        bind_isOk (ser_field_isOk he _ _ _) fun _ =>
        bind_isOk (ser_field_isOk he _ _ _) fun _ =>
        bind_isOk (ser_field_isOk he _ _ _) fun _ => hn _
  · intro e h
    simp only [ElasticTokenCountFieldMapping.serialize] at h
    rcases bind_error_cases h with h | ⟨a1, h⟩
    · exact Or.inl ⟨_, _, _, h⟩
    rcases bind_error_cases h with h | ⟨a2, h⟩
    · exact Or.inr (Or.inl ⟨_, _, _, h⟩)
    rcases bind_error_cases h with h | ⟨a3, h⟩
    · exact Or.inr (Or.inl (ser_field_error h))
    rcases bind_error_cases h with h | ⟨a4, h⟩
    · exact Or.inr (Or.inl (ser_field_error h))
    rcases bind_error_cases h with h | ⟨a5, h⟩
    · exact Or.inr (Or.inl (ser_field_error h))
    rcases bind_error_cases h with h | ⟨a6, h⟩
    · exact Or.inr (Or.inl (ser_field_error h))
    rcases bind_error_cases h with h | ⟨a7, h⟩
    · exact Or.inr (Or.inl (ser_field_error h))
    rcases bind_error_cases h with h | ⟨a8, h⟩
    · exact Or.inr (Or.inl (ser_field_error h))
    rcases bind_error_cases h with h | ⟨a9, h⟩
    · exact Or.inr (Or.inl (ser_field_error h))
    exact Or.inr (Or.inr ⟨_, h⟩)
  · intro e h
    simp only [ElasticCompletionFieldMapping.serialize] at h
    rcases bind_error_cases h with h | ⟨a1, h⟩
    · exact Or.inl ⟨_, _, _, h⟩
    rcases bind_error_cases h with h | ⟨a2, h⟩
    · exact Or.inr (Or.inl ⟨_, _, _, h⟩)
    rcases bind_error_cases h with h | ⟨a3, h⟩
    · exact Or.inr (Or.inl (ser_field_error h))
    rcases bind_error_cases h with h | ⟨a4, h⟩
    · exact Or.inr (Or.inl (ser_field_error h))
    rcases bind_error_cases h with h | ⟨a5, h⟩
    · exact Or.inr (Or.inl (ser_field_error h))
    rcases bind_error_cases h with h | ⟨a6, h⟩
    · exact Or.inr (Or.inl (ser_field_error h))
    rcases bind_error_cases h with h | ⟨a7, h⟩
    · exact Or.inr (Or.inl (ser_field_error h))
    rcases bind_error_cases h with h | ⟨a8, h⟩
    · exact Or.inr (Or.inl (ser_field_error h))
    exact Or.inr (Or.inr ⟨_, h⟩)

theorem serialize_error_propagation_witness :
    (ElasticTokenCountFieldMapping.default.serialize listBackend []).isOk = true
    ∧ (ElasticCompletionFieldMapping.default.serialize listBackend []).isOk = true :=
  (serialize_error_propagation listBackend ElasticTokenCountFieldMapping.default
      ElasticCompletionFieldMapping.default [] []).1
    ⟨fun _ _ _ => rfl, fun _ _ _ => rfl, fun _ => rfl⟩

/-- Claim C10: the derived Default values have every optional parameter
absent, so they serialize to the single type entry. -/
theorem default_mapping_documents :
    ElasticTokenCountFieldMapping.default.document =
      [("type", Value.str "token_count")]
    ∧ ElasticCompletionFieldMapping.default.document =
      [("type", Value.str "completion")] :=
  ⟨rfl, rfl⟩
